import Mathlib

/-!
Shallow embedding of the AIGymtracker backend core (src/backend) and proofs
about it.

Conventions of the embedding:
* Python dicts holding a day's record become Lean structures whose fields are
  `Option`-valued: `none` models an absent key, and `d.get(key, v)` becomes
  `field.getD v`.
* Python numbers (ints and floats) are modelled as exact rationals `ℚ`;
  `round(x, n)` is modelled by round-half-to-even on exact rationals.
* An analyzer's loaded state `self.x_data` is modelled as a `List` of entries.
  In the source the state may be `None`, a list, or a single dict; every method
  first tests falsiness (`if not self.x_data`) and wraps a single dict into a
  one-element list, so `[]` models both `None` and the empty list and the list
  form covers the single-dict case.
* A function that returns the empty dict `{}` on missing data is modelled as
  `Option`-valued with `none` for `{}`; a function that can raise is modelled
  as `Except String`-valued with `.error` for the raise.
-/

namespace GymTracker

/-- Round-half-to-even of a rational to an integer, as Python's builtin
`round` behaves on exact values. -/
def roundHalfEven (q : ℚ) : ℤ :=
  let f : ℤ := ⌊q⌋
  let r : ℚ := q - f
  if r < 1/2 then f
  else if 1/2 < r then f + 1
  else if f % 2 = 0 then f else f + 1

/-- Python `round(q, n)`: round to `n` decimal digits, half to even
(floats modelled as exact rationals). -/
def pyRound (q : ℚ) (n : ℕ) : ℚ :=
  (roundHalfEven (q * 10 ^ n) : ℚ) / 10 ^ n

/-- Python's slice `l[-days:]` for a natural `days`: for `days = 0` the
slice index is `-0 = 0`, so the WHOLE list is returned; otherwise the last
`days` elements (all of them when `days ≥ length`). -/
def lastSlice (days : ℕ) (l : List α) : List α :=
  if days = 0 then l else l.drop (l.length - days)

/-! ## Domain records (Python dicts with optional keys) -/

/-- One day of sleep data (`src/backend/core/sleep_analyzer.py` entries). -/
structure SleepEntry where
  date : Option String
  sleep_hours : Option ℚ
  sleep_quality : Option ℚ
deriving DecidableEq

/-- One day of stress data (`src/backend/core/stress_analyzer.py` entries). -/
structure StressEntry where
  date : Option String
  stress_level : Option ℚ
  stress_factors : Option String
deriving DecidableEq

/-- One day of hydration data (`src/backend/core/hydration_analyzer.py`). -/
structure HydrationEntry where
  date : Option String
  water_intake : Option ℚ
  hydration_quality : Option ℚ
deriving DecidableEq

/-- One food item inside a nutrition day (`foods` list elements). -/
structure Food where
  name : Option String
  calories : Option ℚ
  protein : Option ℚ
  carbs : Option ℚ
  fat : Option ℚ
deriving DecidableEq

/-- One day of nutrition data (`src/backend/core/nutrition_analyzer.py`). -/
structure NutritionEntry where
  date : Option String
  foods : Option (List Food)
deriving DecidableEq

/-- One set of an exercise (`{'set': i, 'reps': r}`). -/
structure SetRec where
  set : Option ℚ
  reps : Option ℚ
deriving DecidableEq

/-- One exercise of a workout (`{'name', 'weight', 'sets'}`). -/
structure Exercise where
  name : Option String
  weight : Option ℚ
  sets : Option (List SetRec)
deriving DecidableEq

/-- One workout record (`{'date', 'workout_type', 'exercises'}`). -/
structure Workout where
  date : Option String
  workout_type : Option String
  exercises : Option (List Exercise)
deriving DecidableEq

/-! ## SleepAnalyzer -/

/-- The dict built by `SleepAnalyzer.get_sleep_trends`. -/
structure SleepTrends where
  dates : List (Option String)
  sleep_hours : List ℚ
  sleep_quality : List ℚ
deriving DecidableEq

/-- The dict built by `SleepAnalyzer.get_weekly_averages`. -/
structure SleepAverages where
  avg_sleep_hours : ℚ
  avg_sleep_quality : ℚ
deriving DecidableEq

namespace SleepAnalyzer

/-- `SleepAnalyzer.get_daily_sleep`: linear scan for the first entry whose
`date` equals the argument; `{}` (here `none`) when data is missing or no
entry matches. -/
def get_daily_sleep (data : List SleepEntry) (date : String) : Option SleepEntry :=
  if data = [] then none
  else data.find? (fun e => e.date = some date)

/-- `SleepAnalyzer.get_sleep_trends`: `{}` (here `none`) when no data;
otherwise iterate over `sleep_entries[-days:]` appending to the three
parallel arrays, defaulting missing metrics to 0. -/
def get_sleep_trends (data : List SleepEntry) (days : ℕ) : Option SleepTrends :=
  if data = [] then none
  else some <|
    (lastSlice days data).foldl
      (fun t e =>
        { dates := t.dates ++ [e.date]
          sleep_hours := t.sleep_hours ++ [e.sleep_hours.getD 0]
          sleep_quality := t.sleep_quality ++ [e.sleep_quality.getD 0] })
      ⟨[], [], []⟩

/-- `SleepAnalyzer.get_weekly_averages`. When `get_sleep_trends` returned the
empty dict `{}` (no data loaded), the source subscripts `trends['dates']`,
which raises `KeyError`; modelled as `.error`. Otherwise `{}` (here
`.ok none`) when the dates array is empty, else the two rounded means. -/
def get_weekly_averages (data : List SleepEntry) :
    Except String (Option SleepAverages) :=
  match get_sleep_trends data 7 with
  | none => .error "KeyError: dates"
  | some t =>
    if t.dates = [] then .ok none
    else .ok (some
      { avg_sleep_hours := pyRound (t.sleep_hours.sum / t.sleep_hours.length) 1
        avg_sleep_quality := pyRound (t.sleep_quality.sum / t.sleep_quality.length) 1 })

end SleepAnalyzer

/-! ## StressAnalyzer -/

/-- The dict built by `StressAnalyzer.get_stress_trends`. -/
structure StressTrends where
  dates : List (Option String)
  stress_levels : List ℚ
  stress_factors : List String
deriving DecidableEq

namespace StressAnalyzer

/-- `StressAnalyzer.get_daily_stress`. -/
def get_daily_stress (data : List StressEntry) (date : String) : Option StressEntry :=
  if data = [] then none
  else data.find? (fun e => e.date = some date)

/-- `StressAnalyzer.get_stress_trends`: as the sleep variant; the
`stress_factors` annotation defaults to the empty string, the numeric
`stress_level` metric to 0. -/
def get_stress_trends (data : List StressEntry) (days : ℕ) : Option StressTrends :=
  if data = [] then none
  else some <|
    (lastSlice days data).foldl
      (fun t e =>
        { dates := t.dates ++ [e.date]
          stress_levels := t.stress_levels ++ [e.stress_level.getD 0]
          stress_factors := t.stress_factors ++ [e.stress_factors.getD ""] })
      ⟨[], [], []⟩

end StressAnalyzer

/-! ## HydrationAnalyzer -/

namespace HydrationAnalyzer

/-- `HydrationAnalyzer.get_daily_hydration`. -/
def get_daily_hydration (data : List HydrationEntry) (date : String) :
    Option HydrationEntry :=
  if data = [] then none
  else data.find? (fun e => e.date = some date)

end HydrationAnalyzer

/-! ## NutritionAnalyzer -/

/-- The dict returned by `NutritionAnalyzer.get_daily_macros` when non-empty:
totals over the day's foods, the date key as passed, and the raw foods list. -/
structure DailyMacros where
  date : Option String
  calories : ℚ
  protein : ℚ
  carbs : ℚ
  fat : ℚ
  foods : List Food
deriving DecidableEq

/-- The dict built by `NutritionAnalyzer.get_macro_trends`. -/
structure MacroTrends where
  calories : List ℚ
  protein : List ℚ
  carbs : List ℚ
  fat : List ℚ
  dates : List (Option String)
deriving DecidableEq

/-- The dict built by `NutritionAnalyzer.get_weekly_averages`. -/
structure NutritionAverages where
  avg_calories : ℚ
  avg_protein : ℚ
  avg_carbs : ℚ
  avg_fat : ℚ
deriving DecidableEq

namespace NutritionAnalyzer

/-- `NutritionAnalyzer._get_foods_by_date`: the `foods` list (default `[]`)
of the first entry whose `date` key equals the argument, `[]` otherwise.
The argument may itself be `None` (an absent date), matched against absent
`date` keys, as Python's `entry.get('date') == date` does. -/
def get_foods_by_date (data : List NutritionEntry) (date : Option String) :
    List Food :=
  if data = [] then []
  else
    match data.find? (fun e => e.date = date) with
    | some e => e.foods.getD []
    | none => []

/-- `NutritionAnalyzer.get_daily_macros`: `{}` (here `none`) when no data or
the day's foods list is empty; otherwise the summed macros (missing food
fields default to 0) plus the date and the foods list. -/
def get_daily_macros (data : List NutritionEntry) (date : Option String) :
    Option DailyMacros :=
  if data = [] then none
  else
    let daily_foods := get_foods_by_date data date
    if daily_foods = [] then none
    else some
      { date := date
        calories := (daily_foods.map (fun f => f.calories.getD 0)).sum
        protein := (daily_foods.map (fun f => f.protein.getD 0)).sum
        carbs := (daily_foods.map (fun f => f.carbs.getD 0)).sum
        fat := (daily_foods.map (fun f => f.fat.getD 0)).sum
        foods := daily_foods }

/-- `NutritionAnalyzer.get_macro_trends`: iterate over the positional window
`nutrition_entries[-days:]`; for each entry look up `get_daily_macros` of its
`date` key and append its values to the parallel arrays ONLY when that lookup
is non-empty — a day whose lookup is empty is skipped entirely. -/
def get_macro_trends (data : List NutritionEntry) (days : ℕ) :
    Option MacroTrends :=
  if data = [] then none
  else some <|
    (lastSlice days data).foldl
      (fun t e =>
        match get_daily_macros data e.date with
        | some m =>
          { calories := t.calories ++ [m.calories]
            protein := t.protein ++ [m.protein]
            carbs := t.carbs ++ [m.carbs]
            fat := t.fat ++ [m.fat]
            dates := t.dates ++ [e.date] }
        | none => t)
      ⟨[], [], [], [], []⟩

/-- `NutritionAnalyzer.get_weekly_averages`: as the sleep variant, with
calories rounded to 0 decimals and the other macros to 1. When
`get_macro_trends` returned `{}` (no data loaded) the subscript
`trends['dates']` raises `KeyError`. -/
def get_weekly_averages (data : List NutritionEntry) :
    Except String (Option NutritionAverages) :=
  match get_macro_trends data 7 with
  | none => .error "KeyError: dates"
  | some t =>
    if t.dates = [] then .ok none
    else .ok (some
      { avg_calories := pyRound (t.calories.sum / t.calories.length) 0
        avg_protein := pyRound (t.protein.sum / t.protein.length) 1
        avg_carbs := pyRound (t.carbs.sum / t.carbs.length) 1
        avg_fat := pyRound (t.fat.sum / t.fat.length) 1 })

end NutritionAnalyzer

/-! ## ComprehensiveAnalyzer -/

/-- A generic nutrition dict as `_calculate_recovery_score` reads it: only
the `protein` and `calories` keys are consulted, each possibly absent.
In the analyzer itself the argument is the always-populated dict built by
`get_daily_macros`. -/
structure NutritionRecord where
  protein : Option ℚ
  calories : Option ℚ
deriving DecidableEq

/-- The snapshot of the five loaded analyzer states that
`ComprehensiveAnalyzer` queries. -/
structure CState where
  workout_data : List Workout
  nutrition_data : List NutritionEntry
  sleep_data : List SleepEntry
  stress_data : List StressEntry
  hydration_data : List HydrationEntry
deriving DecidableEq

/-- The dict built by `get_daily_comprehensive_analysis`: the five raw
lookups plus the three derived fields with their zero/empty defaults. -/
structure DailyAnalysis where
  date : String
  workout : Option Workout
  nutrition : Option DailyMacros
  sleep : Option SleepEntry
  stress : Option StressEntry
  hydration : Option HydrationEntry
  recovery_score : ℕ
  performance_factors : List String
  recommendations : List String
deriving DecidableEq

namespace ComprehensiveAnalyzer

/-- `ComprehensiveAnalyzer._get_workout_by_date`: `None` when no workout data
is loaded, else the first workout whose `date` key equals the argument. -/
def get_workout_by_date (ws : List Workout) (date : String) : Option Workout :=
  if ws = [] then none
  else ws.find? (fun w => w.date = some date)

/-- `ComprehensiveAnalyzer._calculate_recovery_score`: +1 per satisfied
threshold; an absent `stress_level` defaults to 10, every other absent
metric to 0 (`d.get(key, default)` in the source). -/
def calculate_recovery_score (nutrition : NutritionRecord) (sleep : SleepEntry)
    (stress : StressEntry) (hydration : HydrationEntry) : ℕ :=
  (if nutrition.protein.getD 0 ≥ 120 then 1 else 0)
  + (if nutrition.calories.getD 0 ≥ 2000 then 1 else 0)
  + (if sleep.sleep_hours.getD 0 ≥ 7 then 1 else 0)
  + (if sleep.sleep_quality.getD 0 ≥ 7 then 1 else 0)
  + (if stress.stress_level.getD 10 ≤ 5 then 1 else 0)
  + (if hydration.water_intake.getD 0 ≥ 5/2 then 1 else 0)
  + (if hydration.hydration_quality.getD 0 ≥ 7 then 1 else 0)

/-- `ComprehensiveAnalyzer._analyze_performance_factors`. The `workout`
argument is never read by the source body. The nutrition argument is the
dict `get_daily_macros` built, whose `protein` key is always present. -/
def analyze_performance_factors (_workout : Workout) (nutrition : DailyMacros)
    (sleep : SleepEntry) (stress : StressEntry) (hydration : HydrationEntry) :
    List String :=
  (if nutrition.protein < 100 then ["Low protein intake limiting recovery"] else [])
  ++ (if sleep.sleep_hours.getD 0 < 7 then ["Insufficient sleep affecting performance"] else [])
  ++ (if sleep.sleep_quality.getD 0 < 6 then ["Poor sleep quality impacting recovery"] else [])
  ++ (if stress.stress_level.getD 0 > 7 then ["High stress levels affecting workout performance"] else [])
  ++ (if hydration.water_intake.getD 0 < 2 then ["Low water intake affecting performance and recovery"] else [])
  ++ (if hydration.hydration_quality.getD 0 < 6 then ["Poor hydration quality impacting workout performance"] else [])

/-- `ComprehensiveAnalyzer._generate_comprehensive_recommendations`. -/
def generate_comprehensive_recommendations (_workout : Workout)
    (nutrition : DailyMacros) (sleep : SleepEntry) (stress : StressEntry)
    (hydration : HydrationEntry) : List String :=
  (if nutrition.protein < 120 then ["Increase protein intake to 120g+ daily"] else [])
  ++ (if sleep.sleep_hours.getD 0 < 7 then ["Aim for 7-9 hours of sleep nightly"] else [])
  ++ (if sleep.sleep_quality.getD 0 < 6 then ["Improve sleep hygiene and environment"] else [])
  ++ (if stress.stress_level.getD 0 > 7 then ["Implement stress management techniques"] else [])
  ++ (if hydration.water_intake.getD 0 < 5/2 then ["Increase water intake to 2.5+ liters daily"] else [])
  ++ (if hydration.hydration_quality.getD 0 < 6 then ["Improve hydration quality and timing"] else [])

/-- `ComprehensiveAnalyzer.get_daily_comprehensive_analysis`: performs the
five per-domain daily lookups, builds the analysis dict with zero/empty
derived fields, and fills the three derived fields only when all five
lookups are truthy (a found entry always holds its `date` key, so a found
dict is never empty — `Option.isSome` models Python truthiness here). -/
def get_daily_comprehensive_analysis (st : CState) (date : String) :
    DailyAnalysis :=
  let workout_data := get_workout_by_date st.workout_data date
  let nutrition_data := NutritionAnalyzer.get_daily_macros st.nutrition_data (some date)
  let sleep_data := SleepAnalyzer.get_daily_sleep st.sleep_data date
  let stress_data := StressAnalyzer.get_daily_stress st.stress_data date
  let hydration_data := HydrationAnalyzer.get_daily_hydration st.hydration_data date
  let analysis : DailyAnalysis :=
    { date := date
      workout := workout_data
      nutrition := nutrition_data
      sleep := sleep_data
      stress := stress_data
      hydration := hydration_data
      recovery_score := 0
      performance_factors := []
      recommendations := [] }
  match workout_data, nutrition_data, sleep_data, stress_data, hydration_data with
  | some w, some n, some s, some t, some h =>
    { analysis with
      recovery_score := calculate_recovery_score ⟨some n.protein, some n.calories⟩ s t h
      performance_factors := analyze_performance_factors w n s t h
      recommendations := generate_comprehensive_recommendations w n s t h }
  | _, _, _, _, _ => analysis

end ComprehensiveAnalyzer

/-! ## WorkoutMetrics -/

/-- One entry of the per-exercise fatigue list built by
`WorkoutMetrics.calculate_fatigue_patterns`. -/
structure FatigueEntry where
  date : Option String
  fatigue_drop : ℚ
  set_reps : List ℚ
deriving DecidableEq

/-- A Python calendar date as `datetime.strptime(s, "%Y-%m-%d")` yields it. -/
structure PDate where
  year : ℕ
  month : ℕ
  day : ℕ
deriving DecidableEq

/-- Proleptic-Gregorian leap year, as `datetime.date` uses. -/
def isLeap (y : ℕ) : Bool := y % 4 = 0 && (y % 100 ≠ 0 || y % 400 = 0)

/-- Length of month `m` of year `y`. -/
def daysInMonth (y m : ℕ) : ℕ :=
  if m = 2 then (if isLeap y then 29 else 28)
  else if m = 4 ∨ m = 6 ∨ m = 9 ∨ m = 11 then 30
  else 31

/-- Split a character list at every occurrence of `c` (the splitter keeps
empty pieces, as Python's `split` and Lean's `String.splitOn` do). -/
def splitOnChar (c : Char) : List Char → List (List Char)
  | [] => [[]]
  | x :: xs =>
    let r := splitOnChar c xs
    if x = c then [] :: r
    else
      match r with
      | h :: t => (x :: h) :: t
      | [] => [[x]]

/-- Is `cs` a non-empty run of ASCII digits? -/
def isDigits (cs : List Char) : Bool := cs.length > 0 && cs.all Char.isDigit

/-- The natural number a run of ASCII digits denotes. -/
def digitsToNat (cs : List Char) : ℕ :=
  cs.foldl (fun a c => a * 10 + (c.toNat - 48)) 0

/-- `datetime.strptime(s, "%Y-%m-%d")` as a partial function: CPython's
`_strptime` matches `%Y` against exactly four digits, `%m` and `%d` against
one or two, and the `datetime` constructor then rejects year 0, month
outside 1..12 and a day outside the month's length. `none` models the
`ValueError` raise. -/
def parseDate (s : String) : Option PDate :=
  match splitOnChar '-' s.toList with
  | [ys, ms, ds] =>
    if isDigits ys ∧ isDigits ms ∧ isDigits ds
        ∧ ys.length = 4 ∧ ms.length ≤ 2 ∧ ds.length ≤ 2 then
      let y := digitsToNat ys
      let m := digitsToNat ms
      let d := digitsToNat ds
      if 1 ≤ y ∧ 1 ≤ m ∧ m ≤ 12 ∧ 1 ≤ d ∧ d ≤ daysInMonth y m then
        some ⟨y, m, d⟩
      else none
    else none
  | _ => none

/-- Days of year `y` strictly before month `m`. -/
def daysBeforeMonth (y m : ℕ) : ℕ :=
  (List.range (m - 1)).foldl (fun a i => a + daysInMonth y (i + 1)) 0

/-- `datetime.date.toordinal`: day number with 0001-01-01 as day 1; the
difference of two ordinals is the `timedelta.days` between the dates. -/
def toOrdinal (p : PDate) : ℤ :=
  let y : ℤ := (p.year : ℤ) - 1
  365 * y + y / 4 - y / 100 + y / 400
    + (daysBeforeMonth p.year p.month : ℤ) + (p.day : ℤ)

/-- Chronological order on parsed dates, used for `dates.sort()`. -/
def pdLE (a b : PDate) : Prop := toOrdinal a ≤ toOrdinal b

instance : DecidableRel pdLE :=
  fun a b => inferInstanceAs (Decidable (toOrdinal a ≤ toOrdinal b))

instance : IsTotal PDate pdLE := ⟨fun a b => le_total (toOrdinal a) (toOrdinal b)⟩

instance : IsTrans PDate pdLE := ⟨fun _ _ _ hab hbc => le_trans hab hbc⟩

/-- `n` in decimal, left-padded with zeros to width `w` (`strftime` padding). -/
def padZeros (w n : ℕ) : String :=
  let s := toString n
  String.mk (List.replicate (w - s.length) '0') ++ s

/-- `d.strftime("%Y-%m-%d")`. -/
def fmtDate (p : PDate) : String :=
  padZeros 4 p.year ++ "-" ++ padZeros 2 p.month ++ "-" ++ padZeros 2 p.day

/-- Differences of consecutive elements. -/
def consecutiveGaps : List ℤ → List ℤ
  | a :: b :: rest => (b - a) :: consecutiveGaps (b :: rest)
  | _ => []

/-- The dict built by `WorkoutMetrics.calculate_frequency_analysis`; the
`date_range` key is absent (`none`) in the fewer-than-2-sessions result. -/
structure FrequencyResult where
  avg_days_between : ℚ
  total_sessions : ℕ
  date_range : Option String
deriving DecidableEq

namespace WorkoutMetrics

/-- The insertion-ordered dict `fatigue_data`: association list with unique
keys, keyed by the exercise's `name` value (which, as
`exercise.get('name')`, may be `None`). -/
abbrev FatigueData := List (Option String × List FatigueEntry)

/-- `if name not in fatigue_data: fatigue_data[name] = []` followed by
`fatigue_data[name].append(e)`: append `e` to the existing key's list, or
add the key at the end in insertion order. -/
def addFatigue : FatigueData → Option String → FatigueEntry → FatigueData
  | [], k, e => [(k, [e])]
  | p :: m, k, e =>
    if p.1 = k then (p.1, p.2 ++ [e]) :: m else p :: addFatigue m k e

/-- Python's `fatigue_data[name]` read on the association list: the first
(hence, keys being unique, the only) binding of the key. -/
def fatigueLookup : FatigueData → Option String → List FatigueEntry
  | [], _ => []
  | p :: m, k => if p.1 = k then p.2 else fatigueLookup m k

/-- The entry appended for one exercise occurrence: the workout's date, the
drop from the first to the last set's reps, and the raw rep sequence. -/
def fatigueEntryOf (w : Workout) (ex : Exercise) : FatigueEntry :=
  let set_reps : List ℚ := (ex.sets.getD []).map (fun s => s.reps.getD 0)
  ⟨w.date, set_reps.headD 0 - set_reps.getLastD 0, set_reps⟩

/-- The body of the inner exercise loop of `calculate_fatigue_patterns`:
an exercise with fewer than 2 sets is skipped (`continue`); otherwise its
fatigue entry is appended under its name. -/
def fatigueStep (w : Workout) (m : FatigueData) (ex : Exercise) : FatigueData :=
  let sets := ex.sets.getD []
  if sets.length < 2 then m
  else
    let set_reps : List ℚ := sets.map (fun s => s.reps.getD 0)
    if 2 ≤ set_reps.length then addFatigue m ex.name (fatigueEntryOf w ex)
    else m

/-- `WorkoutMetrics.calculate_fatigue_patterns`: for every workout and every
exercise with at least 2 sets, append one entry with the drop from the first
to the last set's reps and the raw rep sequence; exercises with fewer than 2
sets are skipped. -/
def calculate_fatigue_patterns (ws : List Workout) : FatigueData :=
  ws.foldl (fun m w => (w.exercises.getD []).foldl (fatigueStep w) m) []

/-- The date strings of the workouts whose `date` key is truthy (present and
non-empty), in list order — the comprehension filter `if w.get('date')`. -/
def datedStrs (ws : List Workout) : List String :=
  ws.filterMap (fun w =>
    match w.date with
    | some s => if s = "" then none else some s
    | none => none)

/-- Parse every date string, `none` as soon as one fails — the list
comprehension `[strptime(..) for w in ..]` raising on the first bad date. -/
def parseAll : List String → Option (List PDate)
  | [] => some []
  | s :: rest =>
    match parseDate s, parseAll rest with
    | some d, some ds => some (d :: ds)
    | _, _ => none

/-- `WorkoutMetrics.calculate_frequency_analysis`: collect the date strings
of workouts whose `date` key is truthy (present and non-empty), parse each
(`.error` models the `ValueError` raise of an unparseable one), sort
chronologically; with fewer than 2 dates return zero average and no
`date_range`, otherwise the mean gap in days between consecutive sorted
dates and the formatted first-to-last range. -/
def calculate_frequency_analysis (ws : List Workout) :
    Except String FrequencyResult :=
  match parseAll (datedStrs ws) with
  | none => .error "ValueError: time data does not match format"
  | some parsed =>
    let dates := List.insertionSort pdLE parsed
    if dates.length < 2 then
      .ok { avg_days_between := 0, total_sessions := dates.length, date_range := none }
    else
      let g := consecutiveGaps (dates.map toOrdinal)
      .ok
        { avg_days_between := (g.sum : ℚ) / (g.length : ℚ)
          total_sessions := dates.length
          date_range :=
            some (fmtDate (dates.headD ⟨1, 1, 1⟩) ++ " to "
              ++ fmtDate (dates.getLastD ⟨1, 1, 1⟩)) }

end WorkoutMetrics

/-! ## Data loaders (src/backend/data)

The JSON loaders parse the file and return the data unchanged (their
normalized output IS the logical record list), so they are modelled as the
identity on the record types below, which carry exactly the keys the JSON
validators require plus the keys the CSV converters emit. The CSV loaders
are modelled on their `_convert_csv_to_*_format` methods over a list of
typed rows. -/

/-- A food as both loaders shape it: all five keys present. -/
structure FoodRec where
  name : String
  calories : ℚ
  protein : ℚ
  carbs : ℚ
  fat : ℚ
deriving DecidableEq

/-- A normalized nutrition day record. -/
structure NutritionDay where
  date : String
  foods : List FoodRec
deriving DecidableEq

/-- One row of a nutrition CSV (columns `Date,Food,Calories,Protein,Carbs,Fat`). -/
structure NRow where
  Date : String
  Food : String
  Calories : ℚ
  Protein : ℚ
  Carbs : ℚ
  Fat : ℚ
deriving DecidableEq

/-- A set as the CSV workout loader emits it: `{'set': 1, 'reps': reps}`. -/
structure WSet where
  set : ℚ
  reps : ℚ
deriving DecidableEq

/-- A normalized workout exercise. -/
structure WExercise where
  name : String
  weight : ℚ
  sets : List WSet
deriving DecidableEq

/-- A normalized workout day record. -/
structure WorkoutDay where
  date : String
  workout_type : String
  exercises : List WExercise
deriving DecidableEq

/-- One row of a workout CSV (columns `Date,Exercise,Weight,Reps,Sets`);
the `Sets` count column is read by the loader but never used. -/
structure WRow where
  Date : String
  Exercise : String
  Weight : ℚ
  Reps : ℚ
  Sets : ℕ
deriving DecidableEq

namespace CSVNutritionLoader

/-- The food dict one CSV row contributes. -/
def foodOfRow (r : NRow) : FoodRec :=
  ⟨r.Food, r.Calories, r.Protein, r.Carbs, r.Fat⟩

/-- One iteration of the row loop of `_convert_csv_to_nutrition_format`:
when there is no current entry or its date differs from the row's, the
current entry (if any) is flushed and a fresh one is started; the row's food
is then appended to the current entry. -/
def step (st : List NutritionDay × Option NutritionDay) (r : NRow) :
    List NutritionDay × Option NutritionDay :=
  match st.2 with
  | some cur =>
    if cur.date = r.Date then
      (st.1, some { cur with foods := cur.foods ++ [foodOfRow r] })
    else (st.1 ++ [cur], some ⟨r.Date, [foodOfRow r]⟩)
  | none => (st.1, some ⟨r.Date, [foodOfRow r]⟩)

/-- The flush of the trailing current entry after the row loop
(`if current_entry is not None: entries.append(current_entry)`). -/
def flush (st : List NutritionDay × Option NutritionDay) : List NutritionDay :=
  match st.2 with
  | some cur => st.1 ++ [cur]
  | none => st.1

/-- `CSVNutritionLoader._convert_csv_to_nutrition_format`: group consecutive
rows sharing a date into one entry's `foods` list; the trailing current
entry is flushed after the loop. -/
def convert_csv_to_nutrition_format (rows : List NRow) : List NutritionDay :=
  flush (rows.foldl step ([], none))

end CSVNutritionLoader

namespace CSVWorkoutLoader

/-- The exercise dict one CSV row contributes: the `Sets` column is read but
never used; every exercise gets the single set `{'set': 1, 'reps': Reps}`. -/
def exerciseOfRow (r : WRow) : WExercise :=
  ⟨r.Exercise, r.Weight, [⟨1, r.Reps⟩]⟩

/-- One iteration of the row loop of `_convert_csv_to_workout_format`: a new
workout (with `workout_type = 'Unknown'`) starts whenever the date column
changes; the row's exercise is appended to the current workout. -/
def step (st : List WorkoutDay × Option WorkoutDay) (r : WRow) :
    List WorkoutDay × Option WorkoutDay :=
  match st.2 with
  | some cur =>
    if cur.date = r.Date then
      (st.1, some { cur with exercises := cur.exercises ++ [exerciseOfRow r] })
    else (st.1 ++ [cur], some ⟨r.Date, "Unknown", [exerciseOfRow r]⟩)
  | none => (st.1, some ⟨r.Date, "Unknown", [exerciseOfRow r]⟩)

/-- The flush of the trailing current workout after the row loop. -/
def flush (st : List WorkoutDay × Option WorkoutDay) : List WorkoutDay :=
  match st.2 with
  | some cur => st.1 ++ [cur]
  | none => st.1

/-- `CSVWorkoutLoader._convert_csv_to_workout_format`. -/
def convert_csv_to_workout_format (rows : List WRow) : List WorkoutDay :=
  flush (rows.foldl step ([], none))

end CSVWorkoutLoader

/-- The nutrition CSV row of one food of a day. -/
def nrowOf (d : String) (f : FoodRec) : NRow :=
  ⟨d, f.name, f.calories, f.protein, f.carbs, f.fat⟩

/-- The row-oriented (CSV-shaped) representation of a list of logical
nutrition day records: one row per food, carrying the day's date.
Modelled from the spec: the inverse direction of section 4.1's grouping
("rows are grouped by date into the JSON-equivalent shape"), used to
compare the two loaders' outputs on the same logical records. -/
def nutritionRowsOf (entries : List NutritionDay) : List NRow :=
  entries.flatMap (fun e => e.foods.map (nrowOf e.date))

/-- The workout CSV row of one exercise of a day: the `Reps` column carries
the first set's reps and the `Sets` column the set count. -/
def wrowOf (d : String) (ex : WExercise) : WRow :=
  ⟨d, ex.name, ex.weight, (ex.sets.headD ⟨1, 0⟩).reps, ex.sets.length⟩

/-- The row-oriented (CSV-shaped) representation of a list of logical
workout day records: one row per exercise.
Modelled from the spec: the inverse direction of section 4.1's grouping. -/
def workoutRowsOf (entries : List WorkoutDay) : List WRow :=
  entries.flatMap (fun e => e.exercises.map (wrowOf e.date))

/-! ## Loader factories -/

/-- Python's `str.lower()` on the ASCII extension strings the factories
compare: each character is lowered individually. -/
def pyLower (s : String) : String := String.mk (s.toList.map Char.toLower)

/-- Which loader class a factory returns. -/
inductive LoaderKind where
  | json
  | csv
deriving DecidableEq

/-- `DataLoaderFactory.get_loader` (workout). `.error` models the
`ValueError` raise on an unsupported extension; the factory is a pure
static method, so no state exists that could be mutated. -/
def DataLoaderFactory.get_loader (ext : String) : Except String LoaderKind :=
  if pyLower ext = ".json" then .ok .json
  else if pyLower ext = ".csv" then .ok .csv
  else .error ("Unsupported file extension: " ++ ext)

/-- `NutritionLoaderFactory.get_loader`. -/
def NutritionLoaderFactory.get_loader (ext : String) : Except String LoaderKind :=
  if pyLower ext = ".json" then .ok .json
  else if pyLower ext = ".csv" then .ok .csv
  else .error ("Unsupported file extension: " ++ ext)

/-- `SleepLoaderFactory.get_loader`. -/
def SleepLoaderFactory.get_loader (ext : String) : Except String LoaderKind :=
  if pyLower ext = ".json" then .ok .json
  else if pyLower ext = ".csv" then .ok .csv
  else .error ("Unsupported file extension: " ++ ext)

/-- `StressLoaderFactory.get_loader`. -/
def StressLoaderFactory.get_loader (ext : String) : Except String LoaderKind :=
  if pyLower ext = ".json" then .ok .json
  else if pyLower ext = ".csv" then .ok .csv
  else .error ("Unsupported file extension: " ++ ext)

/-- `HydrationLoaderFactory.get_loader`. -/
def HydrationLoaderFactory.get_loader (ext : String) : Except String LoaderKind :=
  if pyLower ext = ".json" then .ok .json
  else if pyLower ext = ".csv" then .ok .csv
  else .error ("Unsupported file extension: " ++ ext)

/-! ## Helper lemmas -/

/-- A 0/1 indicator is monotone along an implication of its conditions. -/
theorem ite_indicator_mono {P Q : Prop} [Decidable P] [Decidable Q]
    (h : P → Q) : (if P then (1 : ℕ) else 0) ≤ (if Q then 1 else 0) := by
  by_cases hP : P
  · simp [hP, h hP]
  · simp [hP]

/-- A 0/1 indicator is at most 1. -/
theorem ite_indicator_le_one {P : Prop} [Decidable P] :
    (if P then (1 : ℕ) else 0) ≤ 1 := by
  split <;> omega

namespace WorkoutMetrics

/-- Reading key `k` after appending an entry under key `k0`: the list for
`k0` grows by the entry, every other key's list is unchanged. -/
theorem fatigueLookup_addFatigue (m : FatigueData) (k0 k : Option String)
    (e : FatigueEntry) :
    fatigueLookup (addFatigue m k0 e) k =
      fatigueLookup m k ++ (if k = k0 then [e] else []) := by
  induction m with
  | nil =>
    simp only [addFatigue, fatigueLookup]
    by_cases hk : k0 = k
    · subst hk; simp
    · rw [if_neg hk, if_neg (Ne.symm hk)]
      simp [fatigueLookup]
  | cons p m ih =>
    simp only [addFatigue]
    by_cases hp : p.1 = k0
    · rw [if_pos hp]
      simp only [fatigueLookup]
      by_cases hk : p.1 = k
      · rw [if_pos hk, if_pos hk, if_pos (hk.symm.trans hp)]
      · rw [if_neg hk, if_neg hk,
          if_neg (fun h : k = k0 => hk (hp.trans h.symm))]
        simp
    · rw [if_neg hp]
      simp only [fatigueLookup]
      by_cases hk : p.1 = k
      · rw [if_pos hk, if_pos hk,
          if_neg (fun h : k = k0 => hp (hk.trans h))]
        simp
      · rw [if_neg hk, if_neg hk, ih]

/-- Reading key `k` after the inner exercise loop of one workout: the list
grows by one entry per exercise named `k` that has at least 2 sets, in
order; other exercises contribute nothing. -/
theorem fatigueLookup_foldl_exercises (w : Workout) (exs : List Exercise)
    (m : FatigueData) (k : Option String) :
    fatigueLookup (exs.foldl (fatigueStep w) m) k =
      fatigueLookup m k ++
        (exs.filter
          (fun ex => decide (ex.name = k ∧ 2 ≤ (ex.sets.getD []).length))).map
          (fatigueEntryOf w) := by
  induction exs generalizing m with
  | nil => simp
  | cons ex exs ih =>
    by_cases hlen : (ex.sets.getD []).length < 2
    · have hstep : fatigueStep w m ex = m := by
        simp [fatigueStep, hlen]
      have hfilter : ¬ (ex.name = k ∧ 2 ≤ (ex.sets.getD []).length) :=
        fun hc => absurd hc.2 (by omega)
      simp only [List.foldl_cons, hstep, List.filter_cons]
      simp only [decide_eq_true_eq, hfilter, if_false]
      exact ih m
    · have hstep : fatigueStep w m ex = addFatigue m ex.name (fatigueEntryOf w ex) := by
        simp only [fatigueStep, if_neg hlen, List.length_map]
        rw [if_pos (Nat.le_of_not_lt hlen)]
      by_cases hk : ex.name = k
      · subst hk
        have hfilter :
            (decide (ex.name = ex.name ∧ 2 ≤ (ex.sets.getD []).length)) = true := by
          simp [Nat.le_of_not_lt hlen]
        rw [List.foldl_cons, hstep, ih, fatigueLookup_addFatigue, if_pos rfl,
          List.filter_cons, hfilter]
        simp
      · have hfilter :
            (decide (ex.name = k ∧ 2 ≤ (ex.sets.getD []).length)) = false := by
          simp [hk]
        rw [List.foldl_cons, hstep, ih, fatigueLookup_addFatigue,
          if_neg (fun h : k = ex.name => hk h.symm), List.filter_cons, hfilter]
        simp

/-- Reading key `k` after the outer workout loop. -/
theorem fatigueLookup_foldl_workouts (ws : List Workout) (m : FatigueData)
    (k : Option String) :
    fatigueLookup
        (ws.foldl (fun m w => (w.exercises.getD []).foldl (fatigueStep w) m) m) k =
      fatigueLookup m k ++
        ws.flatMap (fun w =>
          ((w.exercises.getD []).filter
            (fun ex => decide (ex.name = k ∧ 2 ≤ (ex.sets.getD []).length))).map
            (fatigueEntryOf w)) := by
  induction ws generalizing m with
  | nil => simp
  | cons w ws ih =>
    simp only [List.foldl_cons, List.flatMap_cons]
    rw [ih, fatigueLookup_foldl_exercises]
    simp

end WorkoutMetrics

/-- The trend-building fold of `get_sleep_trends` appends, in order, one
value per entry to each parallel array. -/
theorem sleep_trends_foldl (l : List SleepEntry) (t : SleepTrends) :
    l.foldl
      (fun t e =>
        { dates := t.dates ++ [e.date]
          sleep_hours := t.sleep_hours ++ [e.sleep_hours.getD 0]
          sleep_quality := t.sleep_quality ++ [e.sleep_quality.getD 0] }) t =
      { dates := t.dates ++ l.map (fun e => e.date)
        sleep_hours := t.sleep_hours ++ l.map (fun e => e.sleep_hours.getD 0)
        sleep_quality := t.sleep_quality ++ l.map (fun e => e.sleep_quality.getD 0) } := by
  induction l generalizing t with
  | nil => simp
  | cons e l ih => simp [ih]

/-- The trend-building fold of `get_stress_trends`. -/
theorem stress_trends_foldl (l : List StressEntry) (t : StressTrends) :
    l.foldl
      (fun t e =>
        { dates := t.dates ++ [e.date]
          stress_levels := t.stress_levels ++ [e.stress_level.getD 0]
          stress_factors := t.stress_factors ++ [e.stress_factors.getD ""] }) t =
      { dates := t.dates ++ l.map (fun e => e.date)
        stress_levels := t.stress_levels ++ l.map (fun e => e.stress_level.getD 0)
        stress_factors := t.stress_factors ++ l.map (fun e => e.stress_factors.getD "") } := by
  induction l generalizing t with
  | nil => simp
  | cons e l ih => simp [ih]

/-- For a positive window the Python slice `l[-days:]` is the positional
last-`days` suffix. -/
theorem lastSlice_of_pos (days : ℕ) (l : List α) (h : 1 ≤ days) :
    lastSlice days l = l.drop (l.length - days) := by
  unfold lastSlice
  rw [if_neg (by omega)]

/-- The trend-building fold of `get_macro_trends`: a window entry whose
daily-macro lookup is empty contributes nothing to any array; a kept entry
contributes its lookup's values and its own `date` key. -/
theorem macro_trends_foldl (data : List NutritionEntry)
    (l : List NutritionEntry) (t : MacroTrends) :
    l.foldl
      (fun t e =>
        match NutritionAnalyzer.get_daily_macros data e.date with
        | some m =>
          { calories := t.calories ++ [m.calories]
            protein := t.protein ++ [m.protein]
            carbs := t.carbs ++ [m.carbs]
            fat := t.fat ++ [m.fat]
            dates := t.dates ++ [e.date] }
        | none => t) t =
      { calories := t.calories ++ l.filterMap (fun e =>
          (NutritionAnalyzer.get_daily_macros data e.date).map DailyMacros.calories)
        protein := t.protein ++ l.filterMap (fun e =>
          (NutritionAnalyzer.get_daily_macros data e.date).map DailyMacros.protein)
        carbs := t.carbs ++ l.filterMap (fun e =>
          (NutritionAnalyzer.get_daily_macros data e.date).map DailyMacros.carbs)
        fat := t.fat ++ l.filterMap (fun e =>
          (NutritionAnalyzer.get_daily_macros data e.date).map DailyMacros.fat)
        dates := t.dates ++ l.filterMap (fun e =>
          (NutritionAnalyzer.get_daily_macros data e.date).map (fun _ => e.date)) } := by
  induction l generalizing t with
  | nil => simp
  | cons e l ih =>
    cases h : NutritionAnalyzer.get_daily_macros data e.date with
    | none => simp [h, ih]
    | some m => simp [h, ih]

/-- A successful `parseAll` yields one date per string. -/
theorem parseAll_length :
    ∀ (l : List String) (res : List PDate),
      WorkoutMetrics.parseAll l = some res → res.length = l.length := by
  intro l
  induction l with
  | nil =>
    intro res h
    simp only [WorkoutMetrics.parseAll, Option.some.injEq] at h
    subst h
    rfl
  | cons s rest ih =>
    intro res h
    simp only [WorkoutMetrics.parseAll] at h
    cases hd : parseDate s with
    | none => rw [hd] at h; exact absurd h (by simp)
    | some d =>
      cases hr : WorkoutMetrics.parseAll rest with
      | none => rw [hd, hr] at h; exact absurd h (by simp)
      | some ds =>
        rw [hd, hr] at h
        simp only [Option.some.injEq] at h
        subst h
        simp [ih ds hr]

/-- In a chronologically sorted list the head is no later than any member. -/
theorem sorted_headD_le (l : List PDate) (d : PDate) (hs : l.Sorted pdLE) :
    ∀ x ∈ l, pdLE (l.headD d) x := by
  cases l with
  | nil => intro x hx; simp at hx
  | cons a t =>
    intro x hx
    rcases List.mem_cons.mp hx with rfl | hx2
    · exact le_refl _
    · exact List.rel_of_sorted_cons hs x hx2

/-- In a chronologically sorted list every member is no later than the last. -/
theorem sorted_le_getLastD :
    ∀ (l : List PDate) (d : PDate), l.Sorted pdLE →
      ∀ x ∈ l, pdLE x (l.getLastD d) := by
  intro l
  induction l with
  | nil => intro d hs x hx; simp at hx
  | cons a t ih =>
    intro d hs x hx
    rw [List.getLastD_cons]
    rcases List.mem_cons.mp hx with heq | hx2
    · subst heq
      cases t with
      | nil => exact le_refl _
      | cons b t2 =>
        have hab : pdLE x b := List.rel_of_sorted_cons hs b (by simp)
        exact le_trans hab (ih x hs.of_cons b (by simp))
    · exact ih a hs.of_cons x hx2

namespace CSVNutritionLoader

/-- Rows that share the current entry's date only extend its `foods` list. -/
theorem nutrition_foldl_step_same_date (d : String) (foods : List FoodRec) :
    ∀ (acc : List NutritionDay) (fs0 : List FoodRec),
      (foods.map (nrowOf d)).foldl step (acc, some ⟨d, fs0⟩) =
        (acc, some ⟨d, fs0 ++ foods⟩) := by
  induction foods with
  | nil => intro acc fs0; simp
  | cons f fs ih =>
    intro acc fs0
    have hstep : step (acc, some ⟨d, fs0⟩) (nrowOf d f) =
        (acc, some ⟨d, fs0 ++ [f]⟩) := by
      simp [step, nrowOf, foodOfRow]
    simp only [List.map_cons, List.foldl_cons, hstep, ih]
    simp

/-- Row-loop invariant: serializing day records whose `foods` lists are
non-empty, with consecutive dates distinct and the pending current entry's
date different from the first record's, and then running the grouping loop,
appends exactly the original records after the pending entry. -/
theorem nutrition_convert_aux (entries : List NutritionDay) :
    ∀ (acc : List NutritionDay) (cur : Option NutritionDay),
      (∀ e ∈ entries, e.foods ≠ []) →
      entries.Chain' (fun a b => a.date ≠ b.date) →
      (∀ c, cur = some c → ∀ e ∈ entries.head?, c.date ≠ e.date) →
      flush ((nutritionRowsOf entries).foldl step (acc, cur)) =
        acc ++ cur.toList ++ entries := by
  induction entries with
  | nil =>
    intro acc cur _ _ _
    cases cur <;> simp [nutritionRowsOf, flush]
  | cons e rest ih =>
    intro acc cur hfoods hchain hcur
    obtain ⟨f, fs, hfe⟩ : ∃ f fs, e.foods = f :: fs := by
      cases hf : e.foods with
      | nil => exact absurd hf (hfoods e (by simp))
      | cons f fs => exact ⟨f, fs, rfl⟩
    have hrows : nutritionRowsOf (e :: rest) =
        (e.foods.map (nrowOf e.date)) ++ nutritionRowsOf rest := by
      simp [nutritionRowsOf]
    rw [hrows, List.foldl_append, hfe, List.map_cons, List.foldl_cons]
    have hstep1 : step (acc, cur) (nrowOf e.date f) =
        (acc ++ cur.toList, some ⟨e.date, [f]⟩) := by
      cases cur with
      | none => simp [step, nrowOf, foodOfRow]
      | some c =>
        have hne : ¬ c.date = e.date := hcur c rfl e (by simp)
        simp [step, nrowOf, foodOfRow, hne]
    rw [hstep1, nutrition_foldl_step_same_date]
    have hcur_e : (⟨e.date, [f] ++ fs⟩ : NutritionDay) = e := by
      have hl : ([f] ++ fs) = f :: fs := rfl
      rw [hl, ← hfe]
    rw [hcur_e]
    rw [ih (acc ++ cur.toList) (some e)
      (fun x hx => hfoods x (by simp [hx])) hchain.tail
      (fun c hc e2 he2 => by
        injection hc with hc
        subst hc
        exact hchain.rel_head? he2)]
    simp

end CSVNutritionLoader

namespace CSVWorkoutLoader

/-- An exercise consisting of the single set `{'set': 1, 'reps': r}`
survives the row round trip unchanged. -/
theorem exerciseOfRow_wrowOf (d : String) (ex : WExercise) (r : ℚ)
    (hsets : ex.sets = [⟨1, r⟩]) :
    exerciseOfRow (wrowOf d ex) = ex := by
  cases ex with
  | mk name weight sets =>
    simp only at hsets
    subst hsets
    rfl

/-- Rows that share the current workout's date only extend its `exercises`
list (given the single-set shape of each serialized exercise). -/
theorem workout_foldl_step_same_date (d : String) (exs : List WExercise) :
    (∀ ex ∈ exs, ∃ r, ex.sets = [⟨1, r⟩]) →
    ∀ (acc : List WorkoutDay) (wt : String) (exs0 : List WExercise),
      (exs.map (wrowOf d)).foldl step (acc, some ⟨d, wt, exs0⟩) =
        (acc, some ⟨d, wt, exs0 ++ exs⟩) := by
  induction exs with
  | nil => intro _ acc wt exs0; simp
  | cons ex exs ih =>
    intro hshape acc wt exs0
    obtain ⟨r, hr⟩ := hshape ex (by simp)
    have hex := exerciseOfRow_wrowOf d ex r hr
    have hDate : (wrowOf d ex).Date = d := rfl
    have hstep : step (acc, some ⟨d, wt, exs0⟩) (wrowOf d ex) =
        (acc, some ⟨d, wt, exs0 ++ [ex]⟩) := by
      simp [step, hDate, hex]
    simp only [List.map_cons, List.foldl_cons, hstep,
      ih (fun x hx => hshape x (by simp [hx]))]
    simp

/-- Row-loop invariant for the workout grouping loop, as for nutrition;
additionally every record's `workout_type` must be `"Unknown"` and every
exercise a single set with index 1, since the CSV shape carries neither a
workout type nor more than one set per exercise. -/
theorem workout_convert_aux (entries : List WorkoutDay) :
    ∀ (acc : List WorkoutDay) (cur : Option WorkoutDay),
      (∀ e ∈ entries, e.exercises ≠ []) →
      (∀ e ∈ entries, e.workout_type = "Unknown") →
      (∀ e ∈ entries, ∀ ex ∈ e.exercises, ∃ r, ex.sets = [⟨1, r⟩]) →
      entries.Chain' (fun a b => a.date ≠ b.date) →
      (∀ c, cur = some c → ∀ e ∈ entries.head?, c.date ≠ e.date) →
      flush ((workoutRowsOf entries).foldl step (acc, cur)) =
        acc ++ cur.toList ++ entries := by
  induction entries with
  | nil =>
    intro acc cur _ _ _ _ _
    cases cur <;> simp [workoutRowsOf, flush]
  | cons e rest ih =>
    intro acc cur hexs htype hshape hchain hcur
    obtain ⟨ex1, exs, hfe⟩ : ∃ ex1 exs, e.exercises = ex1 :: exs := by
      cases hf : e.exercises with
      | nil => exact absurd hf (hexs e (by simp))
      | cons ex1 exs => exact ⟨ex1, exs, rfl⟩
    have hrows : workoutRowsOf (e :: rest) =
        (e.exercises.map (wrowOf e.date)) ++ workoutRowsOf rest := by
      simp [workoutRowsOf]
    rw [hrows, List.foldl_append, hfe, List.map_cons, List.foldl_cons]
    obtain ⟨r1, hr1⟩ := hshape e (by simp) ex1 (by simp [hfe])
    have hex := exerciseOfRow_wrowOf e.date ex1 r1 hr1
    have hDate : (wrowOf e.date ex1).Date = e.date := rfl
    have hstep1 : step (acc, cur) (wrowOf e.date ex1) =
        (acc ++ cur.toList, some ⟨e.date, "Unknown", [ex1]⟩) := by
      cases cur with
      | none => simp [step, hDate, hex]
      | some c =>
        have hne : ¬ c.date = e.date := hcur c rfl e (by simp)
        simp [step, hDate, hex, hne]
    rw [hstep1,
      workout_foldl_step_same_date e.date exs
        (fun x hx => hshape e (by simp) x (by simp [hfe, hx]))]
    have hcur_e : (⟨e.date, "Unknown", [ex1] ++ exs⟩ : WorkoutDay) = e := by
      have hl : ([ex1] ++ exs) = ex1 :: exs := rfl
      rw [hl, ← hfe, ← htype e (by simp)]
    rw [hcur_e]
    rw [ih (acc ++ cur.toList) (some e)
      (fun x hx => hexs x (by simp [hx]))
      (fun x hx => htype x (by simp [hx]))
      (fun x hx => hshape x (by simp [hx]))
      hchain.tail
      (fun c hc e2 he2 => by
        injection hc with hc
        subst hc
        exact hchain.rel_head? he2)]
    simp

end CSVWorkoutLoader

/-! ## Claim theorems -/

open ComprehensiveAnalyzer in
/-- C2, counterexample to the claim as stated: the recovery score is NOT
monotonically non-decreasing in `stress_level` — raising it from 3 to 6
(all other inputs fixed) strictly decreases the score from 1 to 0. -/
theorem recovery_score_not_monotone_in_stress :
    (3 : ℚ) ≤ 6 ∧
    calculate_recovery_score ⟨none, none⟩ ⟨none, none, none⟩
        ⟨none, some 6, none⟩ ⟨none, none, none⟩ <
      calculate_recovery_score ⟨none, none⟩ ⟨none, none, none⟩
        ⟨none, some 3, none⟩ ⟨none, none, none⟩ := by
  refine ⟨by norm_num, ?_⟩
  norm_num [calculate_recovery_score]

open ComprehensiveAnalyzer in
/-- C2 (amended): the recovery score awards exactly +1 for each of the seven
threshold conditions, so it is bounded in [0,7] (the lower bound is the type
`ℕ`); it is monotonically non-decreasing in protein, calories, sleep_hours,
sleep_quality, water_intake and hydration_quality individually, and
monotonically non-INCREASING in stress_level. -/
theorem recovery_score_bounds_and_monotonicity :
    (∀ (n : NutritionRecord) (s : SleepEntry) (t : StressEntry) (h : HydrationEntry), calculate_recovery_score n s t h ≤ 7)
    ∧ (∀ (p c sh sq sl wi hq : ℚ) (d1 d2 d3 : Option String) (sf : Option String),
        calculate_recovery_score ⟨some p, some c⟩ ⟨d1, some sh, some sq⟩
            ⟨d2, some sl, sf⟩ ⟨d3, some wi, some hq⟩ =
          (if p ≥ 120 then 1 else 0) + (if c ≥ 2000 then 1 else 0)
          + (if sh ≥ 7 then 1 else 0) + (if sq ≥ 7 then 1 else 0)
          + (if sl ≤ 5 then 1 else 0) + (if wi ≥ 5/2 then 1 else 0)
          + (if hq ≥ 7 then 1 else 0))
    ∧ (∀ (n : NutritionRecord) (s : SleepEntry) (t : StressEntry) (h : HydrationEntry) (x y : ℚ), x ≤ y →
        calculate_recovery_score { n with protein := some x } s t h ≤
          calculate_recovery_score { n with protein := some y } s t h)
    ∧ (∀ (n : NutritionRecord) (s : SleepEntry) (t : StressEntry) (h : HydrationEntry) (x y : ℚ), x ≤ y →
        calculate_recovery_score { n with calories := some x } s t h ≤
          calculate_recovery_score { n with calories := some y } s t h)
    ∧ (∀ (n : NutritionRecord) (s : SleepEntry) (t : StressEntry) (h : HydrationEntry) (x y : ℚ), x ≤ y →
        calculate_recovery_score n { s with sleep_hours := some x } t h ≤
          calculate_recovery_score n { s with sleep_hours := some y } t h)
    ∧ (∀ (n : NutritionRecord) (s : SleepEntry) (t : StressEntry) (h : HydrationEntry) (x y : ℚ), x ≤ y →
        calculate_recovery_score n { s with sleep_quality := some x } t h ≤
          calculate_recovery_score n { s with sleep_quality := some y } t h)
    ∧ (∀ (n : NutritionRecord) (s : SleepEntry) (t : StressEntry) (h : HydrationEntry) (x y : ℚ), x ≤ y →
        calculate_recovery_score n s t { h with water_intake := some x } ≤
          calculate_recovery_score n s t { h with water_intake := some y })
    ∧ (∀ (n : NutritionRecord) (s : SleepEntry) (t : StressEntry) (h : HydrationEntry) (x y : ℚ), x ≤ y →
        calculate_recovery_score n s t { h with hydration_quality := some x } ≤
          calculate_recovery_score n s t { h with hydration_quality := some y })
    ∧ (∀ (n : NutritionRecord) (s : SleepEntry) (t : StressEntry) (h : HydrationEntry) (x y : ℚ), x ≤ y →
        calculate_recovery_score n s { t with stress_level := some y } h ≤
          calculate_recovery_score n s { t with stress_level := some x } h) := by
  refine ⟨?_, ?_, ?_, ?_, ?_, ?_, ?_, ?_, ?_⟩
  · intro n s t h
    unfold calculate_recovery_score
    have h7 : (7 : ℕ) = 1 + 1 + 1 + 1 + 1 + 1 + 1 := by norm_num
    rw [h7]
    exact add_le_add (add_le_add (add_le_add (add_le_add (add_le_add
      (add_le_add ite_indicator_le_one ite_indicator_le_one)
      ite_indicator_le_one) ite_indicator_le_one) ite_indicator_le_one)
      ite_indicator_le_one) ite_indicator_le_one
  · intro p c sh sq sl wi hq d1 d2 d3 sf
    rfl
  · intro n s t h x y hxy
    unfold calculate_recovery_score
    exact add_le_add (add_le_add (add_le_add (add_le_add (add_le_add
      (add_le_add (ite_indicator_mono (by simpa using fun hx => le_trans hx hxy))
        le_rfl) le_rfl) le_rfl) le_rfl) le_rfl) le_rfl
  · intro n s t h x y hxy
    unfold calculate_recovery_score
    exact add_le_add (add_le_add (add_le_add (add_le_add (add_le_add
      (add_le_add le_rfl (ite_indicator_mono (by simpa using fun hx => le_trans hx hxy)))
        le_rfl) le_rfl) le_rfl) le_rfl) le_rfl
  · intro n s t h x y hxy
    unfold calculate_recovery_score
    exact add_le_add (add_le_add (add_le_add (add_le_add (add_le_add
      (add_le_add le_rfl le_rfl)
      (ite_indicator_mono (by simpa using fun hx => le_trans hx hxy))) le_rfl)
      le_rfl) le_rfl) le_rfl
  · intro n s t h x y hxy
    unfold calculate_recovery_score
    exact add_le_add (add_le_add (add_le_add (add_le_add (add_le_add
      (add_le_add le_rfl le_rfl) le_rfl)
      (ite_indicator_mono (by simpa using fun hx => le_trans hx hxy)))
      le_rfl) le_rfl) le_rfl
  · intro n s t h x y hxy
    unfold calculate_recovery_score
    exact add_le_add (add_le_add (add_le_add (add_le_add (add_le_add
      (add_le_add le_rfl le_rfl) le_rfl) le_rfl) le_rfl)
      (ite_indicator_mono (by simpa using fun hx => le_trans hx hxy))) le_rfl
  · intro n s t h x y hxy
    unfold calculate_recovery_score
    exact add_le_add (add_le_add (add_le_add (add_le_add (add_le_add
      (add_le_add le_rfl le_rfl) le_rfl) le_rfl) le_rfl) le_rfl)
      (ite_indicator_mono (by simpa using fun hx => le_trans hx hxy))
  · intro n s t h x y hxy
    unfold calculate_recovery_score
    exact add_le_add (add_le_add (add_le_add (add_le_add (add_le_add
      (add_le_add le_rfl le_rfl) le_rfl) le_rfl)
      (ite_indicator_mono (by simpa using fun hy => le_trans hxy hy)))
      le_rfl) le_rfl

open ComprehensiveAnalyzer in
/-- C2, witness: the monotonicity conjunct applied at a concrete input —
raising protein from 100 to 130 with everything else absent does not
decrease the score. -/
theorem recovery_score_monotone_witness :
    calculate_recovery_score ⟨some 100, none⟩ ⟨none, none, none⟩
        ⟨none, none, none⟩ ⟨none, none, none⟩ ≤
      calculate_recovery_score ⟨some 130, none⟩ ⟨none, none, none⟩
        ⟨none, none, none⟩ ⟨none, none, none⟩ :=
  recovery_score_bounds_and_monotonicity.2.2.1 ⟨none, none⟩ ⟨none, none, none⟩
    ⟨none, none, none⟩ ⟨none, none, none⟩ 100 130 (by norm_num)

open ComprehensiveAnalyzer in
/-- C9: in the recovery score a missing metric key is replaced by its
`get` default — 10 for `stress_level` (so the `≤ 5` test fails) and 0 for
each of the six other metrics (so their `≥`-threshold tests fail) — and
consequently four records carrying none of the seven metric keys score
exactly 0, whatever their `date` and `stress_factors` values. -/
theorem recovery_score_missing_key_defaults :
    (∀ (n : NutritionRecord) (s : SleepEntry) (t : StressEntry)
        (h : HydrationEntry), n.protein = none →
      calculate_recovery_score n s t h =
        calculate_recovery_score { n with protein := some 0 } s t h)
    ∧ (∀ (n : NutritionRecord) (s : SleepEntry) (t : StressEntry)
        (h : HydrationEntry), n.calories = none →
      calculate_recovery_score n s t h =
        calculate_recovery_score { n with calories := some 0 } s t h)
    ∧ (∀ (n : NutritionRecord) (s : SleepEntry) (t : StressEntry)
        (h : HydrationEntry), s.sleep_hours = none →
      calculate_recovery_score n s t h =
        calculate_recovery_score n { s with sleep_hours := some 0 } t h)
    ∧ (∀ (n : NutritionRecord) (s : SleepEntry) (t : StressEntry)
        (h : HydrationEntry), s.sleep_quality = none →
      calculate_recovery_score n s t h =
        calculate_recovery_score n { s with sleep_quality := some 0 } t h)
    ∧ (∀ (n : NutritionRecord) (s : SleepEntry) (t : StressEntry)
        (h : HydrationEntry), t.stress_level = none →
      calculate_recovery_score n s t h =
        calculate_recovery_score n s { t with stress_level := some 10 } h)
    ∧ (∀ (n : NutritionRecord) (s : SleepEntry) (t : StressEntry)
        (h : HydrationEntry), h.water_intake = none →
      calculate_recovery_score n s t h =
        calculate_recovery_score n s t { h with water_intake := some 0 })
    ∧ (∀ (n : NutritionRecord) (s : SleepEntry) (t : StressEntry)
        (h : HydrationEntry), h.hydration_quality = none →
      calculate_recovery_score n s t h =
        calculate_recovery_score n s t { h with hydration_quality := some 0 })
    ∧ (∀ (d1 d2 d3 : Option String) (sf : Option String),
      calculate_recovery_score ⟨none, none⟩ ⟨d1, none, none⟩ ⟨d2, none, sf⟩
        ⟨d3, none, none⟩ = 0) := by
  refine ⟨?_, ?_, ?_, ?_, ?_, ?_, ?_, ?_⟩
  · intro n s t h hk; cases n; simp_all [calculate_recovery_score]
  · intro n s t h hk; cases n; simp_all [calculate_recovery_score]
  · intro n s t h hk; cases s; simp_all [calculate_recovery_score]
  · intro n s t h hk; cases s; simp_all [calculate_recovery_score]
  · intro n s t h hk; cases t; simp_all [calculate_recovery_score]
  · intro n s t h hk; cases h; simp_all [calculate_recovery_score]
  · intro n s t h hk; cases h; simp_all [calculate_recovery_score]
  · intro d1 d2 d3 sf; norm_num [calculate_recovery_score]

open ComprehensiveAnalyzer in
/-- C9, witness: the missing-`stress_level` conjunct applied at a concrete
record, and the all-keys-missing conjunct at concrete dates. -/
theorem recovery_score_missing_key_defaults_witness :
    calculate_recovery_score ⟨some 130, none⟩ ⟨none, none, none⟩
        ⟨some "2024-01-15", none, none⟩ ⟨none, none, none⟩ =
      calculate_recovery_score ⟨some 130, none⟩ ⟨none, none, none⟩
        ⟨some "2024-01-15", some 10, none⟩ ⟨none, none, none⟩ :=
  recovery_score_missing_key_defaults.2.2.2.2.1 ⟨some 130, none⟩
    ⟨none, none, none⟩ ⟨some "2024-01-15", none, none⟩ ⟨none, none, none⟩ rfl

/-- C8: every one of the five loader factories raises `ValueError`
(modelled as `.error`) exactly on extensions whose lower-casing is neither
".json" nor ".csv", and returns the JSON (resp. CSV) loader on any letter
case of ".json" (resp. ".csv"). The factories are pure static methods over
their argument, so no state exists for them to mutate. -/
theorem loader_factories_extension_dispatch (ext : String) :
    (pyLower ext ≠ ".json" → pyLower ext ≠ ".csv" →
      DataLoaderFactory.get_loader ext =
          .error ("Unsupported file extension: " ++ ext)
        ∧ NutritionLoaderFactory.get_loader ext =
          .error ("Unsupported file extension: " ++ ext)
        ∧ SleepLoaderFactory.get_loader ext =
          .error ("Unsupported file extension: " ++ ext)
        ∧ StressLoaderFactory.get_loader ext =
          .error ("Unsupported file extension: " ++ ext)
        ∧ HydrationLoaderFactory.get_loader ext =
          .error ("Unsupported file extension: " ++ ext))
    ∧ (pyLower ext = ".json" →
      DataLoaderFactory.get_loader ext = .ok .json
        ∧ NutritionLoaderFactory.get_loader ext = .ok .json
        ∧ SleepLoaderFactory.get_loader ext = .ok .json
        ∧ StressLoaderFactory.get_loader ext = .ok .json
        ∧ HydrationLoaderFactory.get_loader ext = .ok .json)
    ∧ (pyLower ext = ".csv" →
      DataLoaderFactory.get_loader ext = .ok .csv
        ∧ NutritionLoaderFactory.get_loader ext = .ok .csv
        ∧ SleepLoaderFactory.get_loader ext = .ok .csv
        ∧ StressLoaderFactory.get_loader ext = .ok .csv
        ∧ HydrationLoaderFactory.get_loader ext = .ok .csv) := by
  refine ⟨fun h1 h2 => ?_, fun h1 => ?_, fun h1 => ?_⟩
  · simp [DataLoaderFactory.get_loader, NutritionLoaderFactory.get_loader,
      SleepLoaderFactory.get_loader, StressLoaderFactory.get_loader,
      HydrationLoaderFactory.get_loader, h1, h2]
  · simp [DataLoaderFactory.get_loader, NutritionLoaderFactory.get_loader,
      SleepLoaderFactory.get_loader, StressLoaderFactory.get_loader,
      HydrationLoaderFactory.get_loader, h1]
  · have h2 : pyLower ext ≠ ".json" := by
      intro hc; rw [hc] at h1; exact absurd h1 (by decide)
    simp [DataLoaderFactory.get_loader, NutritionLoaderFactory.get_loader,
      SleepLoaderFactory.get_loader, StressLoaderFactory.get_loader,
      HydrationLoaderFactory.get_loader, h1, h2]

/-- C8, witness: the unsupported extension ".xml" makes every factory
raise, and the mixed-case ".JSON" returns the JSON loader. -/
theorem loader_factories_extension_dispatch_witness :
    DataLoaderFactory.get_loader ".xml" =
        .error ("Unsupported file extension: " ++ ".xml")
      ∧ NutritionLoaderFactory.get_loader ".JSON" = .ok .json := by
  constructor
  · exact ((loader_factories_extension_dispatch ".xml").1
      (by decide) (by decide)).1
  · exact ((loader_factories_extension_dispatch ".JSON").2.1 (by decide)).2.1

open WorkoutMetrics in
/-- C6: reading any exercise name in `calculate_fatigue_patterns` yields, in
traversal order, exactly one entry per occurrence of that exercise with at
least 2 sets — the entry holding the workout's date, `fatigue_drop` = first
set's reps − last set's reps, and the raw per-set rep sequence — while
occurrences with fewer than 2 sets contribute nothing; and on the concrete
workout `{date: 2024-01-15, exercises: [Bench, weight 60, sets
[{set 1, reps 10}, {set 2, reps 8}]]}` the "Bench" list is exactly one
entry with `fatigue_drop = 2` and `set_reps = [10, 8]`. -/
theorem fatigue_patterns_characterization :
    (∀ (ws : List Workout) (k : Option String),
      fatigueLookup (calculate_fatigue_patterns ws) k =
        ws.flatMap (fun w =>
          ((w.exercises.getD []).filter
            (fun ex => decide (ex.name = k ∧ 2 ≤ (ex.sets.getD []).length))).map
            (fatigueEntryOf w)))
    ∧ fatigueLookup
        (calculate_fatigue_patterns
          [⟨some "2024-01-15", none,
            some [⟨some "Bench", some 60,
              some [⟨some 1, some 10⟩, ⟨some 2, some 8⟩]⟩]⟩])
        (some "Bench") =
      [⟨some "2024-01-15", 2, [10, 8]⟩] := by
  constructor
  · intro ws k
    rw [calculate_fatigue_patterns, fatigueLookup_foldl_workouts]
    rfl
  · show fatigueLookup _ _ = _
    norm_num [calculate_fatigue_patterns, fatigueStep, addFatigue,
      fatigueLookup, fatigueEntryOf]

open SleepAnalyzer in
/-- C4, counterexample to the claim as stated: the window is the Python
slice `entries[-N:]`, and for the window size `N = 0` that slice is the
WHOLE list (`-0 = 0`), not the last 0 records. With two loaded records the
claim demands the empty dates array, but the code returns both dates. -/
theorem trends_window_zero_counterexample :
    (get_sleep_trends
        [⟨some "2024-01-01", some 8, some 7⟩, ⟨some "2024-01-02", none, none⟩]
        0).map SleepTrends.dates ≠
      some ([] : List (Option String)) := by
  decide

open SleepAnalyzer StressAnalyzer in
/-- C4 (amended): for every positive window size `N` and non-empty loaded
record list, the sleep and stress trend builders take exactly the last `N`
records by position in loaded order (no sorting or date filtering) and
return parallel arrays of the dates and of each tracked metric, with 0
substituted for a missing numeric metric key (and the empty string for a
missing `stress_factors` annotation); for `N = 0` the Python slice
`entries[-0:]` instead yields the whole list. -/
theorem trends_window_characterization :
    (∀ (data : List SleepEntry) (N : ℕ), data ≠ [] → 1 ≤ N →
      get_sleep_trends data N =
        some
          { dates := (data.drop (data.length - N)).map (fun e => e.date)
            sleep_hours :=
              (data.drop (data.length - N)).map (fun e => e.sleep_hours.getD 0)
            sleep_quality :=
              (data.drop (data.length - N)).map (fun e => e.sleep_quality.getD 0) })
    ∧ (∀ (data : List StressEntry) (N : ℕ), data ≠ [] → 1 ≤ N →
      get_stress_trends data N =
        some
          { dates := (data.drop (data.length - N)).map (fun e => e.date)
            stress_levels :=
              (data.drop (data.length - N)).map (fun e => e.stress_level.getD 0)
            stress_factors :=
              (data.drop (data.length - N)).map (fun e => e.stress_factors.getD "") }) := by
  constructor
  · intro data N hdata hN
    rw [get_sleep_trends, if_neg hdata, lastSlice_of_pos _ _ hN,
      sleep_trends_foldl]
    simp
  · intro data N hdata hN
    rw [get_stress_trends, if_neg hdata, lastSlice_of_pos _ _ hN,
      stress_trends_foldl]
    simp

open SleepAnalyzer in
/-- C4, witness: the characterization applied to two concrete sleep records
with window 2. -/
theorem trends_window_witness :
    get_sleep_trends
        [⟨some "2024-01-01", some 8, some 7⟩, ⟨some "2024-01-02", none, none⟩]
        2 =
      some ⟨[some "2024-01-01", some "2024-01-02"], [8, 0], [7, 0]⟩ := by
  have h := trends_window_characterization.1
    [⟨some "2024-01-01", some 8, some 7⟩, ⟨some "2024-01-02", none, none⟩]
    2 (by decide) (by decide)
  rw [h]
  rfl

/-- C3, counterexample to the claim as stated: with NO records loaded the
function does not return an empty mapping — `get_macro_trends` /
`get_sleep_trends` return the empty dict `{}`, and the subsequent
`trends['dates']` subscript raises `KeyError`. -/
theorem weekly_averages_raise_counterexample :
    NutritionAnalyzer.get_weekly_averages ([] : List NutritionEntry) =
        .error "KeyError: dates"
      ∧ SleepAnalyzer.get_weekly_averages ([] : List SleepEntry) =
        .error "KeyError: dates" :=
  ⟨rfl, rfl⟩

/-- C3 (amended): whenever records are loaded the 7-day trend dict exists,
and `get_weekly_averages` returns, for each tracked metric, the arithmetic
mean of that metric's trend array rounded to 1 decimal place (calories to
an integer) — or the empty mapping when the trend's dates array is empty;
with no records loaded the `trends['dates']` subscript raises `KeyError`
instead of returning an empty mapping. -/
theorem weekly_averages_mean_characterization :
    (∀ (data : List NutritionEntry) (t : MacroTrends),
      NutritionAnalyzer.get_macro_trends data 7 = some t →
      NutritionAnalyzer.get_weekly_averages data =
        (if t.dates = [] then .ok none
         else .ok (some
          { avg_calories := pyRound (t.calories.sum / t.calories.length) 0
            avg_protein := pyRound (t.protein.sum / t.protein.length) 1
            avg_carbs := pyRound (t.carbs.sum / t.carbs.length) 1
            avg_fat := pyRound (t.fat.sum / t.fat.length) 1 })))
    ∧ (∀ data : List NutritionEntry, data ≠ [] →
      (NutritionAnalyzer.get_macro_trends data 7).isSome)
    ∧ (∀ (data : List SleepEntry) (t : SleepTrends),
      SleepAnalyzer.get_sleep_trends data 7 = some t →
      SleepAnalyzer.get_weekly_averages data =
        (if t.dates = [] then .ok none
         else .ok (some
          { avg_sleep_hours := pyRound (t.sleep_hours.sum / t.sleep_hours.length) 1
            avg_sleep_quality :=
              pyRound (t.sleep_quality.sum / t.sleep_quality.length) 1 })))
    ∧ (∀ data : List SleepEntry, data ≠ [] →
      (SleepAnalyzer.get_sleep_trends data 7).isSome)
    ∧ NutritionAnalyzer.get_weekly_averages ([] : List NutritionEntry) =
      .error "KeyError: dates"
    ∧ SleepAnalyzer.get_weekly_averages ([] : List SleepEntry) =
      .error "KeyError: dates" := by
  refine ⟨?_, ?_, ?_, ?_, rfl, rfl⟩
  · intro data t ht
    rw [NutritionAnalyzer.get_weekly_averages, ht]
  · intro data hdata
    rw [NutritionAnalyzer.get_macro_trends, if_neg hdata]
    rfl
  · intro data t ht
    rw [SleepAnalyzer.get_weekly_averages, ht]
  · intro data hdata
    rw [SleepAnalyzer.get_sleep_trends, if_neg hdata]
    rfl

/-- C3, witness: a single loaded nutrition day with one food, whose weekly
averages are that day's own totals. -/
theorem weekly_averages_witness :
    NutritionAnalyzer.get_weekly_averages
        [⟨some "2024-01-15", some [⟨some "Rice", some 200, some 5, some 45, some 1⟩]⟩] =
      .ok (some ⟨200, 5, 45, 1⟩) := by
  have ht : NutritionAnalyzer.get_macro_trends
      [⟨some "2024-01-15", some [⟨some "Rice", some 200, some 5, some 45, some 1⟩]⟩] 7 =
      some ⟨[200], [5], [45], [1], [some "2024-01-15"]⟩ := by
    norm_num [NutritionAnalyzer.get_macro_trends,
      NutritionAnalyzer.get_daily_macros, NutritionAnalyzer.get_foods_by_date,
      lastSlice, List.find?]
  have h := weekly_averages_mean_characterization.1
    [⟨some "2024-01-15", some [⟨some "Rice", some 200, some 5, some 45, some 1⟩]⟩]
    ⟨[200], [5], [45], [1], [some "2024-01-15"]⟩ ht
  rw [h]
  norm_num [pyRound, roundHalfEven]

/-- C10: the trend arrays of `get_macro_trends` keep only the window days
whose daily-macro lookup is non-empty — a day with an empty lookup (for
example an entry with an empty `foods` list) is omitted from the dates
array and every metric array, rather than contributing zeros; the value a
kept day contributes is the lookup of its date, which reads the FIRST entry
in the whole list whose `date` matches (so the arrays can be shorter than
the positional 7-window, as the concrete two-day example shows). -/
theorem macro_trends_skips_empty_days :
    (∀ data : List NutritionEntry,
      NutritionAnalyzer.get_macro_trends data 7 =
        if data = [] then none
        else some
          { calories := (lastSlice 7 data).filterMap (fun e =>
              (NutritionAnalyzer.get_daily_macros data e.date).map DailyMacros.calories)
            protein := (lastSlice 7 data).filterMap (fun e =>
              (NutritionAnalyzer.get_daily_macros data e.date).map DailyMacros.protein)
            carbs := (lastSlice 7 data).filterMap (fun e =>
              (NutritionAnalyzer.get_daily_macros data e.date).map DailyMacros.carbs)
            fat := (lastSlice 7 data).filterMap (fun e =>
              (NutritionAnalyzer.get_daily_macros data e.date).map DailyMacros.fat)
            dates := (lastSlice 7 data).filterMap (fun e =>
              (NutritionAnalyzer.get_daily_macros data e.date).map (fun _ => e.date)) })
    ∧ (∀ (data : List NutritionEntry) (d : Option String),
      NutritionAnalyzer.get_daily_macros data d =
        (data.find? (fun e => decide (e.date = d))).bind (fun e =>
          if e.foods.getD [] = [] then none
          else some
            { date := d
              calories := ((e.foods.getD []).map (fun f => f.calories.getD 0)).sum
              protein := ((e.foods.getD []).map (fun f => f.protein.getD 0)).sum
              carbs := ((e.foods.getD []).map (fun f => f.carbs.getD 0)).sum
              fat := ((e.foods.getD []).map (fun f => f.fat.getD 0)).sum
              foods := e.foods.getD [] }))
    ∧ (NutritionAnalyzer.get_macro_trends
        [⟨some "2024-01-01", some [⟨some "Rice", some 200, some 5, some 45, some 1⟩]⟩,
         ⟨some "2024-01-02", some []⟩] 7).map MacroTrends.dates =
      some [some "2024-01-01"] := by
  refine ⟨?_, ?_, ?_⟩
  · intro data
    by_cases hdata : data = []
    · simp [NutritionAnalyzer.get_macro_trends, hdata]
    · simp only [NutritionAnalyzer.get_macro_trends, if_neg hdata,
        macro_trends_foldl]
      simp
  · intro data d
    by_cases hdata : data = []
    · subst hdata
      simp [NutritionAnalyzer.get_daily_macros,
        NutritionAnalyzer.get_foods_by_date]
    · cases hfind : data.find? (fun e => decide (e.date = d)) with
      | none =>
        simp [NutritionAnalyzer.get_daily_macros,
          NutritionAnalyzer.get_foods_by_date, hdata, hfind]
      | some e =>
        by_cases hfoods : e.foods.getD [] = []
        · simp [NutritionAnalyzer.get_daily_macros,
            NutritionAnalyzer.get_foods_by_date, hdata, hfind, hfoods]
        · simp [NutritionAnalyzer.get_daily_macros,
            NutritionAnalyzer.get_foods_by_date, hdata, hfind, hfoods]
  · have h1 : NutritionAnalyzer.get_daily_macros
        [⟨some "2024-01-01", some [⟨some "Rice", some 200, some 5, some 45, some 1⟩]⟩,
         ⟨some "2024-01-02", some []⟩] (some "2024-01-01") =
        some ⟨some "2024-01-01", 200 + 0, 5 + 0, 45 + 0, 1 + 0,
          [⟨some "Rice", some 200, some 5, some 45, some 1⟩]⟩ := by
      simp [NutritionAnalyzer.get_daily_macros,
        NutritionAnalyzer.get_foods_by_date, List.find?]
    have h2 : NutritionAnalyzer.get_daily_macros
        [⟨some "2024-01-01", some [⟨some "Rice", some 200, some 5, some 45, some 1⟩]⟩,
         ⟨some "2024-01-02", some []⟩] (some "2024-01-02") = none := by
      simp [NutritionAnalyzer.get_daily_macros,
        NutritionAnalyzer.get_foods_by_date, List.find?]
    simp [NutritionAnalyzer.get_macro_trends, lastSlice, List.foldl, h1, h2]

open ComprehensiveAnalyzer in
/-- C1: `get_daily_comprehensive_analysis` fills `recovery_score`,
`performance_factors` and `recommendations` exactly when all five per-domain
daily lookups return a non-empty result (first conjunct); when any one of
the five is missing the three fields keep their defaults 0, `[]`, `[]`
(second conjunct). -/
theorem daily_comprehensive_gating (st : CState) (date : String) :
    (∀ w n s t h,
      get_workout_by_date st.workout_data date = some w →
      NutritionAnalyzer.get_daily_macros st.nutrition_data (some date) = some n →
      SleepAnalyzer.get_daily_sleep st.sleep_data date = some s →
      StressAnalyzer.get_daily_stress st.stress_data date = some t →
      HydrationAnalyzer.get_daily_hydration st.hydration_data date = some h →
      (get_daily_comprehensive_analysis st date).recovery_score =
          calculate_recovery_score ⟨some n.protein, some n.calories⟩ s t h
        ∧ (get_daily_comprehensive_analysis st date).performance_factors =
          analyze_performance_factors w n s t h
        ∧ (get_daily_comprehensive_analysis st date).recommendations =
          generate_comprehensive_recommendations w n s t h)
    ∧ ((get_workout_by_date st.workout_data date = none
        ∨ NutritionAnalyzer.get_daily_macros st.nutrition_data (some date) = none
        ∨ SleepAnalyzer.get_daily_sleep st.sleep_data date = none
        ∨ StressAnalyzer.get_daily_stress st.stress_data date = none
        ∨ HydrationAnalyzer.get_daily_hydration st.hydration_data date = none) →
      (get_daily_comprehensive_analysis st date).recovery_score = 0
        ∧ (get_daily_comprehensive_analysis st date).performance_factors = []
        ∧ (get_daily_comprehensive_analysis st date).recommendations = []) := by
  constructor
  · intro w n s t h hw hn hs ht hh
    simp [get_daily_comprehensive_analysis, hw, hn, hs, ht, hh]
  · intro hmiss
    cases hw : get_workout_by_date st.workout_data date with
    | none => simp [get_daily_comprehensive_analysis, hw]
    | some w =>
      cases hn : NutritionAnalyzer.get_daily_macros st.nutrition_data (some date) with
      | none => simp [get_daily_comprehensive_analysis, hw, hn]
      | some n =>
        cases hs : SleepAnalyzer.get_daily_sleep st.sleep_data date with
        | none => simp [get_daily_comprehensive_analysis, hw, hn, hs]
        | some s =>
          cases ht : StressAnalyzer.get_daily_stress st.stress_data date with
          | none => simp [get_daily_comprehensive_analysis, hw, hn, hs, ht]
          | some t =>
            cases hh : HydrationAnalyzer.get_daily_hydration st.hydration_data date with
            | none => simp [get_daily_comprehensive_analysis, hw, hn, hs, ht, hh]
            | some h =>
              rcases hmiss with hm | hm | hm | hm | hm <;> simp_all

open ComprehensiveAnalyzer in
/-- C1, witness: a state holding matching records in all five domains for
2024-01-15; the three derived fields are computed from the five lookups. -/
theorem daily_comprehensive_gating_witness :
    (get_daily_comprehensive_analysis
      ⟨[⟨some "2024-01-15", some "Push", none⟩],
       [⟨some "2024-01-15",
         some [⟨some "Chicken", some 300, some 40, some 0, some 10⟩]⟩],
       [⟨some "2024-01-15", some 8, some 8⟩],
       [⟨some "2024-01-15", some 3, none⟩],
       [⟨some "2024-01-15", some 3, some 8⟩]⟩
      "2024-01-15").recovery_score =
      calculate_recovery_score ⟨some 40, some 300⟩
        ⟨some "2024-01-15", some 8, some 8⟩ ⟨some "2024-01-15", some 3, none⟩
        ⟨some "2024-01-15", some 3, some 8⟩ := by
  have h := (daily_comprehensive_gating
    ⟨[⟨some "2024-01-15", some "Push", none⟩],
     [⟨some "2024-01-15",
       some [⟨some "Chicken", some 300, some 40, some 0, some 10⟩]⟩],
     [⟨some "2024-01-15", some 8, some 8⟩],
     [⟨some "2024-01-15", some 3, none⟩],
     [⟨some "2024-01-15", some 3, some 8⟩]⟩
    "2024-01-15").1
    ⟨some "2024-01-15", some "Push", none⟩
    ⟨some "2024-01-15", 300, 40, 0, 10,
      [⟨some "Chicken", some 300, some 40, some 0, some 10⟩]⟩
    ⟨some "2024-01-15", some 8, some 8⟩
    ⟨some "2024-01-15", some 3, none⟩
    ⟨some "2024-01-15", some 3, some 8⟩
    (by rfl)
    (by simp [NutritionAnalyzer.get_daily_macros,
      NutritionAnalyzer.get_foods_by_date, List.find?])
    (by rfl) (by rfl) (by rfl)
  exact h.1

open WorkoutMetrics in
/-- C7: when every dated workout's date string parses, frequency analysis
counts the dated sessions; with fewer than 2 it returns average 0, that
count, and no `date_range` key; with at least 2 it sorts the parsed dates
ascending (the sort is chronologically sorted and a permutation of the
parsed dates) and returns the arithmetic mean of the day-gaps between
consecutive sorted dates plus a `date_range` formatted from the first
sorted date (the earliest) to the last (the latest). -/
theorem frequency_analysis_characterization (ws : List Workout)
    (parsed : List PDate) (hp : parseAll (datedStrs ws) = some parsed) :
    parsed.length = (datedStrs ws).length
    ∧ (parsed.length < 2 →
      calculate_frequency_analysis ws =
        .ok { avg_days_between := 0, total_sessions := parsed.length,
              date_range := none })
    ∧ (2 ≤ parsed.length →
      calculate_frequency_analysis ws =
        .ok { avg_days_between :=
                (((consecutiveGaps
                  ((List.insertionSort pdLE parsed).map toOrdinal)).sum : ℚ) /
                ((consecutiveGaps
                  ((List.insertionSort pdLE parsed).map toOrdinal)).length : ℚ))
              total_sessions := parsed.length
              date_range :=
                some (fmtDate ((List.insertionSort pdLE parsed).headD ⟨1, 1, 1⟩)
                  ++ " to "
                  ++ fmtDate ((List.insertionSort pdLE parsed).getLastD ⟨1, 1, 1⟩)) }
      ∧ (List.insertionSort pdLE parsed).Sorted pdLE
      ∧ (List.insertionSort pdLE parsed).Perm parsed
      ∧ (∀ x ∈ parsed,
          pdLE ((List.insertionSort pdLE parsed).headD ⟨1, 1, 1⟩) x
          ∧ pdLE x ((List.insertionSort pdLE parsed).getLastD ⟨1, 1, 1⟩))) := by
  refine ⟨parseAll_length _ _ hp, ?_, ?_⟩
  · intro hlt
    rw [calculate_frequency_analysis, hp]
    simp only [List.length_insertionSort]
    rw [if_pos hlt]
  · intro hge
    have hsorted : (List.insertionSort pdLE parsed).Sorted pdLE :=
      List.sorted_insertionSort pdLE parsed
    have hperm : (List.insertionSort pdLE parsed).Perm parsed :=
      List.perm_insertionSort pdLE parsed
    refine ⟨?_, hsorted, hperm, ?_⟩
    · rw [calculate_frequency_analysis, hp]
      simp only [List.length_insertionSort]
      rw [if_neg (by omega)]
    · intro x hx
      have hmem : x ∈ List.insertionSort pdLE parsed := hperm.mem_iff.mpr hx
      exact ⟨sorted_headD_le _ _ hsorted x hmem,
        sorted_le_getLastD _ _ hsorted x hmem⟩

open WorkoutMetrics in
/-- C7, witness: two dated workouts five days apart — two sessions, an
average gap of 5 days, and the range from the earlier to the later date. -/
theorem frequency_analysis_witness :
    calculate_frequency_analysis
        [⟨some "2024-01-15", none, none⟩, ⟨some "2024-01-10", none, none⟩] =
      .ok { avg_days_between := 5, total_sessions := 2,
            date_range := some "2024-01-10 to 2024-01-15" } := by
  have h := (frequency_analysis_characterization
    [⟨some "2024-01-15", none, none⟩, ⟨some "2024-01-10", none, none⟩]
    [⟨2024, 1, 15⟩, ⟨2024, 1, 10⟩] (by rfl)).2.2 (by norm_num)
  rw [h.1]
  have e1 : consecutiveGaps
      ((List.insertionSort pdLE [⟨2024, 1, 15⟩, ⟨2024, 1, 10⟩]).map toOrdinal) =
      [5] := by rfl
  have e2 : fmtDate
        ((List.insertionSort pdLE
          [⟨2024, 1, 15⟩, ⟨2024, 1, 10⟩]).headD ⟨1, 1, 1⟩)
      ++ " to "
      ++ fmtDate ((List.insertionSort pdLE
          [⟨2024, 1, 15⟩, ⟨2024, 1, 10⟩]).getLastD ⟨1, 1, 1⟩) =
      "2024-01-10 to 2024-01-15" := by rfl
  rw [e1, e2]
  norm_num

/-- C5, counterexample to the claim as stated, for both loader pairs (the
JSON loaders parse and return the records unchanged, so the JSON-shaped
load of each list below is the list itself, while the CSV path differs):
(1) a nutrition day with an empty `foods` list produces no rows, so the CSV
path drops the day; (2) two consecutive day records sharing a date are
merged into one by the CSV grouping; (3) a workout exercise with two sets
comes back with the single set `{set 1, reps 10}`, because a CSV row can
carry only one rep count and the `Sets` column is ignored; (4) a
`workout_type` other than "Unknown" comes back as "Unknown". -/
theorem csv_round_trip_counterexample :
    CSVNutritionLoader.convert_csv_to_nutrition_format
        (nutritionRowsOf [⟨"2024-01-15", []⟩]) ≠ [⟨"2024-01-15", []⟩]
    ∧ CSVNutritionLoader.convert_csv_to_nutrition_format
        (nutritionRowsOf
          [⟨"2024-01-15", [⟨"Rice", 200, 5, 45, 1⟩]⟩,
           ⟨"2024-01-15", [⟨"Chicken", 300, 40, 0, 10⟩]⟩]) ≠
      [⟨"2024-01-15", [⟨"Rice", 200, 5, 45, 1⟩]⟩,
       ⟨"2024-01-15", [⟨"Chicken", 300, 40, 0, 10⟩]⟩]
    ∧ CSVWorkoutLoader.convert_csv_to_workout_format
        (workoutRowsOf
          [⟨"2024-01-15", "Unknown", [⟨"Bench", 60, [⟨1, 10⟩, ⟨2, 8⟩]⟩]⟩]) ≠
      [⟨"2024-01-15", "Unknown", [⟨"Bench", 60, [⟨1, 10⟩, ⟨2, 8⟩]⟩]⟩]
    ∧ CSVWorkoutLoader.convert_csv_to_workout_format
        (workoutRowsOf [⟨"2024-01-15", "Push", [⟨"Bench", 60, [⟨1, 10⟩]⟩]⟩]) ≠
      [⟨"2024-01-15", "Push", [⟨"Bench", 60, [⟨1, 10⟩]⟩]⟩] := by
  refine ⟨?_, ?_, ?_, ?_⟩ <;> decide

/-- C5 (amended): the JSON loaders return the parsed day records unchanged,
so for every collection of logical daily records in which every record has
at least one child row (a non-empty `foods` / `exercises` list), consecutive
records have distinct dates, and — for workouts — every record has
`workout_type = "Unknown"` and every exercise exactly the single set
`{set 1, reps r}` the CSV shape can carry, loading the CSV-shaped rows
produces exactly the same normalized record list field-for-field (modulo
the documented `Date/Food/Calories/... -> date/name/calories/...` column
renaming, which the row serialization performs). -/
theorem csv_json_round_trip :
    (∀ entries : List NutritionDay,
      (∀ e ∈ entries, e.foods ≠ []) →
      entries.Chain' (fun a b => a.date ≠ b.date) →
      CSVNutritionLoader.convert_csv_to_nutrition_format
        (nutritionRowsOf entries) = entries)
    ∧ (∀ entries : List WorkoutDay,
      (∀ e ∈ entries, e.exercises ≠ []) →
      (∀ e ∈ entries, e.workout_type = "Unknown") →
      (∀ e ∈ entries, ∀ ex ∈ e.exercises, ∃ r, ex.sets = [⟨1, r⟩]) →
      entries.Chain' (fun a b => a.date ≠ b.date) →
      CSVWorkoutLoader.convert_csv_to_workout_format
        (workoutRowsOf entries) = entries) := by
  constructor
  · intro entries hfoods hchain
    have h := CSVNutritionLoader.nutrition_convert_aux entries [] none hfoods hchain
      (fun c hc => by simp at hc)
    simpa [CSVNutritionLoader.convert_csv_to_nutrition_format] using h
  · intro entries hexs htype hshape hchain
    have h := CSVWorkoutLoader.workout_convert_aux entries [] none hexs htype hshape
      hchain (fun c hc => by simp at hc)
    simpa [CSVWorkoutLoader.convert_csv_to_workout_format] using h

/-- C5, witness: a two-day nutrition collection with distinct dates and
non-empty foods survives the CSV round trip. -/
theorem csv_json_round_trip_witness :
    CSVNutritionLoader.convert_csv_to_nutrition_format
        (nutritionRowsOf
          [⟨"2024-01-15", [⟨"Rice", 200, 5, 45, 1⟩]⟩,
           ⟨"2024-01-16", [⟨"Eggs", 150, 12, 1, 10⟩]⟩]) =
      [⟨"2024-01-15", [⟨"Rice", 200, 5, 45, 1⟩]⟩,
       ⟨"2024-01-16", [⟨"Eggs", 150, 12, 1, 10⟩]⟩] :=
  csv_json_round_trip.1
    [⟨"2024-01-15", [⟨"Rice", 200, 5, 45, 1⟩]⟩,
     ⟨"2024-01-16", [⟨"Eggs", 150, 12, 1, 10⟩]⟩]
    (by decide)
    (List.chain'_cons.mpr ⟨by decide, List.chain'_singleton _⟩)

end GymTracker
